import Mathlib

/-!
Shallow embedding of the cache-access layer of a small FastAPI + Redis
pass-through service (files `redis_client.py`, `main.py`, `models.py`,
`config.py`), together with theorems settling the specification claims.

Conventions of the embedding:
- Python exceptions become the `PyExc` sum type; a function that can raise
  returns `Except PyExc α`.
- Mutable object state (`self._token`, `self._client`) becomes explicit
  state passed in and returned.
- Calls into external collaborators (the identity backend, the redis
  library) become oracle parameters describing the outcome of the call:
  `Except String β` where the `error` case is the exception the call raised.
- Wall-clock time (`time.time()`) becomes an explicit `now : Int` argument.
-/

/-- Python exception values, as far as the program distinguishes them.
`exc msg` is any raw exception carrying a message (this is what the redis
library and the identity backend raise, and what `raise` re-raises);
`httpException status detail` is FastAPI HTTPException.
The constructor `storeOperationError` is Modelled from the spec (section 7
error taxonomy): the spec describes a facade-level wrapper error carrying
the operation name and key; no such type exists in the source, the
constructor is present only so the spec claim about it can be stated. -/
inductive PyExc where
  | exc (msg : String)
  | httpException (status : Nat) (detail : String)
  | storeOperationError (op : String) (key : String) (msg : String)
deriving DecidableEq, Repr

/-- Python `str(e)`: the message for a plain exception; starlette
HTTPException stringifies as `"{status_code}: {detail}"`. -/
def pyStr : PyExc → String
  | .exc m => m
  | .httpException s d => toString s ++ ": " ++ d
  | .storeOperationError op key m => op ++ " " ++ key ++ ": " ++ m

/-- True exactly on the facade-level wrapper error described by the spec. -/
def PyExc.isStoreOperationError : PyExc → Bool
  | .storeOperationError _ _ _ => true
  | _ => false

/-! ## Token Provider (`EntraIDCredentialProvider`, redis_client.py lines 9-45) -/

/-- The mutable state of `EntraIDCredentialProvider`: `self.username`,
`self._token` (initially `None`) and `self._token_expiry` (initially 0). -/
structure ProviderState where
  username : String
  token : Option String
  tokenExpiry : Int
deriving DecidableEq, Repr

/-- Embedding of `EntraIDCredentialProvider.get_credentials`.
`now` is `time.time()`; `backend` is the outcome of
`self.credential.get_token(...)` as a `(token.token, token.expires_on)`
pair or the exception it raised. Returns the post-call provider state and
either the raised exception or the returned `(username, token)` pair
together with the number of identity-backend requests performed (0 or 1). -/
def get_credentials (st : ProviderState) (now : Int)
    (backend : Except String (String × Int)) :
    ProviderState × Except PyExc ((String × String) × Nat) :=
  if st.token.isNone ∨ now ≥ st.tokenExpiry - 300 then
    match backend with
    | .ok (tok, exp) =>
        ({ st with token := some tok, tokenExpiry := exp },
          .ok ((st.username, tok), 1))
    | .error e => (st, .error (.exc e))
  else
    (st, .ok ((st.username, st.token.getD ""), 0))

/-! ## Claims C3, C7, C8 about the Token Provider -/

/-- C3 counterexample: the claim that a returned credential is never within
300 seconds of its expiry fails when the identity backend itself issues a
short-lived token. Here no credential is held, so a refresh is triggered at
time 1000 and the backend returns a token expiring at time 1000; the call
returns that token although it is 0 seconds from expiry (0 ≤ 300). -/
theorem C3_counterexample :
    get_credentials ⟨"default", none, 0⟩ 1000 (.ok ("tok", 1000)) =
      (⟨"default", some "tok", 1000⟩, .ok (("default", "tok"), 1)) ∧
    ¬ ((1000 : Int) - 1000 > 300) := by
  constructor
  · rfl
  · decide

/-- C3 (amended): whenever the held credential is absent or within 300
seconds of its expiry a refresh is triggered first and only the refreshed
credential is returned; and provided every token the identity backend
issues expires more than 300 seconds in the future, every successfully
returned credential is more than 300 seconds from its expiry (the expiry
recorded in the post-call state) at the moment of return, and the returned
token is exactly the token held in the post-call state. -/
theorem C3_credential_freshness (st : ProviderState) (now : Int)
    (backend : Except String (String × Int))
    (hb : ∀ tok exp, backend = .ok (tok, exp) → now + 300 < exp) :
    ∀ st2 cred n,
      get_credentials st now backend = (st2, .ok (cred, n)) →
      now + 300 < st2.tokenExpiry ∧ st2.token = some cred.2 := by
  intro st2 cred n h
  unfold get_credentials at h
  by_cases hc : st.token.isNone ∨ now ≥ st.tokenExpiry - 300
  · rw [if_pos hc] at h
    cases backend with
    | ok p =>
        obtain ⟨tok, exp⟩ := p
        simp only [Prod.mk.injEq, Except.ok.injEq] at h
        obtain ⟨h1, h2, _⟩ := h
        refine ⟨?_, ?_⟩
        · rw [← h1]
          exact hb tok exp rfl
        · rw [← h1, ← h2]
    | error e => simp at h
  · rw [if_neg hc] at h
    push_neg at hc
    obtain ⟨hsome, hfresh⟩ := hc
    simp only [Prod.mk.injEq, Except.ok.injEq] at h
    obtain ⟨h1, h2, _⟩ := h
    cases htok : st.token with
    | none => rw [htok] at hsome; simp at hsome
    | some t =>
        refine ⟨?_, ?_⟩
        · rw [← h1]; omega
        · rw [← h1, ← h2, htok]; rfl

/-- C3 witness: the freshness theorem applied at a concrete input (a held
token 1000 seconds from expiry, a backend never consulted). -/
theorem C3_credential_freshness_witness :
    (2000 : Int) + 300 < (⟨"default", some "t0", 3000⟩ : ProviderState).tokenExpiry ∧
    (⟨"default", some "t0", 3000⟩ : ProviderState).token = some ("default", "t0").2 :=
  C3_credential_freshness ⟨"default", some "t0", 3000⟩ 2000 (.error "unused")
    (by intro tok exp h; exact absurd h (by simp))
    ⟨"default", some "t0", 3000⟩ ("default", "t0") 0 (by rfl)

/-- C7: two successive `get_credentials` calls made while the held
credential is still more than 300 seconds from its expiry both return the
identical held token, leave the state unchanged, and perform 0 requests to
the identity backend; and any call made when no token is held or when
current time ≥ expiry − 300 with a successful backend performs exactly one
refresh, installing and returning the fresh token. -/
theorem C7_no_redundant_refresh (st : ProviderState) (t : String)
    (now1 now2 : Int) (b1 b2 : Except String (String × Int))
    (htok : st.token = some t)
    (h1 : st.tokenExpiry - now1 > 300) (h2 : st.tokenExpiry - now2 > 300) :
    get_credentials st now1 b1 = (st, .ok ((st.username, t), 0)) ∧
    get_credentials st now2 b2 = (st, .ok ((st.username, t), 0)) ∧
    (∀ (st' : ProviderState) (now' : Int) (tok : String) (exp : Int),
      (st'.token = none ∨ now' ≥ st'.tokenExpiry - 300) →
      get_credentials st' now' (.ok (tok, exp)) =
        ({ st' with token := some tok, tokenExpiry := exp },
          .ok ((st'.username, tok), 1))) := by
  refine ⟨?_, ?_, ?_⟩
  · unfold get_credentials
    rw [if_neg (by rw [htok]; simp; omega)]
    rw [htok]; rfl
  · unfold get_credentials
    rw [if_neg (by rw [htok]; simp; omega)]
    rw [htok]; rfl
  · intro st' now' tok exp hcond
    unfold get_credentials
    rw [if_pos (by cases hcond with
      | inl h => left; rw [h]; rfl
      | inr h => right; exact h)]

/-- C7 witness: the theorem applied at a concrete held credential far from
expiry, and its refresh clause applied at a concrete empty provider. -/
theorem C7_no_redundant_refresh_witness :
    get_credentials ⟨"default", some "tok", 10000⟩ 100 (.ok ("x", 0)) =
      (⟨"default", some "tok", 10000⟩, .ok (("default", "tok"), 0)) ∧
    get_credentials ⟨"default", some "tok", 10000⟩ 200 (.error "down") =
      (⟨"default", some "tok", 10000⟩, .ok (("default", "tok"), 0)) ∧
    get_credentials ⟨"default", none, 0⟩ 500 (.ok ("new", 4000)) =
      (⟨"default", some "new", 4000⟩, .ok (("default", "new"), 1)) :=
  have h := C7_no_redundant_refresh ⟨"default", some "tok", 10000⟩ "tok" 100 200
    (.ok ("x", 0)) (.error "down") rfl (by decide) (by decide)
  ⟨h.1, h.2.1, h.2.2 ⟨"default", none, 0⟩ 500 "new" 4000 (Or.inl rfl)⟩

/-- C8: when a refresh is due (no token held, or current time ≥ expiry −
300) and the identity-backend token request fails, `get_credentials` raises
the backend error and the provider state — held credential and its expiry —
is left unchanged; no credential is returned at all. -/
theorem C8_refresh_failure_propagates (st : ProviderState) (now : Int)
    (e : String) (h : st.token = none ∨ now ≥ st.tokenExpiry - 300) :
    get_credentials st now (.error e) = (st, .error (.exc e)) := by
  unfold get_credentials
  rw [if_pos (by cases h with
    | inl h1 => left; rw [h1]; rfl
    | inr h1 => right; exact h1)]

/-- C8 witness: the theorem applied to a held credential 10 seconds from
expiry and a failing backend. -/
theorem C8_refresh_failure_propagates_witness :
    get_credentials ⟨"default", some "old", 1010⟩ 1000 (.error "AADSTS down") =
      (⟨"default", some "old", 1010⟩, .error (.exc "AADSTS down")) :=
  C8_refresh_failure_propagates ⟨"default", some "old", 1010⟩ 1000
    "AADSTS down" (Or.inr (by decide))

/-! ## Store Connection Manager (`RedisClient._get_client`, redis_client.py lines 55-97) -/

/-- Outcome of one connection-establishment attempt against the redis
library: `constructed` is the result of `redis.Redis(...)` (an opaque handle
identifier, or the exception the constructor raised) and `pingOutcome` is
the result of `self._client.ping()` on that new handle (`()` on success, or
the exception it raised). -/
structure ConnectAttempt where
  constructed : Except String Nat
  pingOutcome : Except String Unit
deriving Repr

/-- Embedding of `RedisClient._get_client`. The state is `self._client`
(`none` initially). Returns the post-call state, the raised exception or
returned handle, and the number of connection-establishment attempts
performed (0 or 1). Faithful to the source: `self._client` is assigned the
newly constructed handle BEFORE the liveness ping is issued, and the
`except` block only logs and re-raises, so a handle whose ping failed stays
assigned in the state. -/
def get_client (st : Option Nat) (env : ConnectAttempt) :
    Option Nat × Except PyExc Nat × Nat :=
  match st with
  | some c => (some c, .ok c, 0)
  | none =>
    match env.constructed with
    | .error e => (none, .error (.exc e), 1)
    | .ok h =>
      match env.pingOutcome with
      | .error e => (some h, .error (.exc e), 1)
      | .ok _ => (some h, .ok h, 1)

/-! ## Cache Operations Facade (`RedisClient.get_value/set_value/delete_value/health_check`) -/

/-- Embedding of `RedisClient.get_value` (lines 99-108). `storeGet` is the
outcome of `client.get(key)`: a value, Python `None` (key absent), or the
exception the call raised. The `except` block logs and re-raises the same
exception (`raise` with no argument). -/
def get_value (st : Option Nat) (env : ConnectAttempt) (key : String)
    (storeGet : Except String (Option String)) :
    Option Nat × Except PyExc (Option String) :=
  match get_client st env with
  | (st2, .error e, _) => (st2, .error e)
  | (st2, .ok _, _) =>
    match storeGet with
    | .ok v => (st2, .ok v)
    | .error e => (st2, .error (.exc e))

/-- Embedding of `RedisClient.set_value` (lines 110-119). `storeSet` is the
outcome of `client.set(key, value, ex=ttl)`. -/
def set_value (st : Option Nat) (env : ConnectAttempt)
    (key value : String) (ttl : Option Int)
    (storeSet : Except String Bool) :
    Option Nat × Except PyExc Bool :=
  match get_client st env with
  | (st2, .error e, _) => (st2, .error e)
  | (st2, .ok _, _) =>
    match storeSet with
    | .ok b => (st2, .ok b)
    | .error e => (st2, .error (.exc e))

/-- Embedding of `RedisClient.delete_value` (lines 121-130). `storeDel` is
the outcome of `client.delete(key)`, the number of keys removed; the source
returns `client.delete(key) > 0`. -/
def delete_value (st : Option Nat) (env : ConnectAttempt) (key : String)
    (storeDel : Except String Nat) :
    Option Nat × Except PyExc Bool :=
  match get_client st env with
  | (st2, .error e, _) => (st2, .error e)
  | (st2, .ok _, _) =>
    match storeDel with
    | .ok n => (st2, .ok (decide (n > 0)))
    | .error e => (st2, .error (.exc e))

/-- The remote key-value store content, used only to give the external
collaborator a semantics. -/
def KVStore := String → Option String

/-- Modelled from the spec (section 6 external interface): the remote
store's DEL command removes the key and replies with the number of keys
removed — 1 if the key existed, 0 otherwise. The store itself is an
external collaborator, not code of this repository. -/
def storeDelOp (s : KVStore) (key : String) : KVStore × Nat :=
  (fun k => if k = key then none else s k,
    if (s key).isSome then 1 else 0)

/-! ## Claims C1, C2, C9 -/

/-- C1 counterexample: with an established connection, a store `get` call
that raises `"boom"` surfaces to the handler as that very raw exception,
which is not the facade-level StoreOperationError the claim requires. -/
theorem C1_counterexample :
    (get_value (some 1) ⟨.ok 0, .ok ()⟩ "k" (.error "boom")).2 =
      .error (.exc "boom") ∧
    (PyExc.exc "boom").isStoreOperationError = false := by
  constructor
  · rfl
  · rfl

/-- C1 (amended): for every facade cache operation (get, set, delete) and
every failure raised by the underlying store call, the facade catches the
failure, logs it, and re-raises the ORIGINAL exception unchanged; the
exception surfaced to the request handler is the raw store exception, never
a facade-level StoreOperationError wrapper (no such type exists in the
code). -/
theorem C1_raw_exception_reraised (e : String) (c : Nat)
    (env : ConnectAttempt) (key value : String) (ttl : Option Int) :
    (get_value (some c) env key (.error e)).2 = .error (.exc e) ∧
    (set_value (some c) env key value ttl (.error e)).2 = .error (.exc e) ∧
    (delete_value (some c) env key (.error e)).2 = .error (.exc e) ∧
    (PyExc.exc e).isStoreOperationError = false := by
  exact ⟨rfl, rfl, rfl, rfl⟩

/-- C2 evaluation at the failing input: a first `_get_client` call in which
the handle is constructed (id 7) but the liveness ping raises. The call
raises, yet the state retains the handle from the failed attempt; a second
call then returns that very handle with zero new establishment attempts,
contradicting the claim that the next call retries from scratch and that no
handle from a failed attempt is returned to later callers. -/
theorem C2_failed_ping_handle_retained :
    get_client none ⟨.ok 7, .error "ping timeout"⟩ =
      (some 7, .error (.exc "ping timeout"), 1) ∧
    get_client (some 7) ⟨.ok 8, .ok ()⟩ = (some 7, .ok 7, 0) := by
  exact ⟨rfl, rfl⟩

/-- C9: with an established connection, `delete_value` run against the
store DEL semantics returns true exactly when the key existed, the key is
absent from the store afterwards, and a non-existent key yields false
without raising (the result is a normal `ok`, never an exception). -/
theorem C9_delete_true_iff_existed (s : KVStore) (key : String)
    (c : Nat) (env : ConnectAttempt) :
    (delete_value (some c) env key (.ok (storeDelOp s key).2)).2 =
      .ok (s key).isSome ∧
    (storeDelOp s key).1 key = none := by
  constructor
  · show (match (Except.ok (storeDelOp s key).2 : Except String Nat) with
      | .ok n => ((some c : Option Nat), (.ok (decide (n > 0)) : Except PyExc Bool))
      | .error e => (some c, .error (.exc e))).2 = .ok (s key).isSome
    cases h : s key with
    | none => simp [storeDelOp, h]
    | some v => simp [storeDelOp, h]
  · simp [storeDelOp]

/-! ## `RedisClient.health_check` (redis_client.py lines 132-151) -/

/-- The fields the health check reads from `client.info()`, each optional
because the source uses `info.get(field, fallback)`. -/
structure StoreInfo where
  connected_clients : Option Nat
  used_memory_human : Option String
  redis_version : Option String
deriving DecidableEq, Repr

/-- The dictionary `health_check` returns. The healthy-path keys and the
failure-path `error` key are all optional fields, mirroring the two dict
shapes of the source. -/
structure HealthReport where
  status : String
  ping : Option Bool := none
  connected_clients : Option Nat := none
  used_memory_human : Option String := none
  redis_version : Option String := none
  error : Option String := none
deriving DecidableEq, Repr

/-- Embedding of `RedisClient.health_check`. `pingR` and `infoR` are the
outcomes of `client.ping()` and `client.info()`. The whole body is inside
`try`, and the `except` branch returns a report instead of raising — hence
the embedding is a total function into `HealthReport`, never an `Except`:
the function cannot raise. -/
def health_check (st : Option Nat) (env : ConnectAttempt)
    (pingR : Except String Bool) (infoR : Except String StoreInfo) :
    Option Nat × HealthReport :=
  match get_client st env with
  | (st2, .error e, _) => (st2, { status := "unhealthy", error := some (pyStr e) })
  | (st2, .ok _, _) =>
    match pingR with
    | .error e => (st2, { status := "unhealthy", error := some e })
    | .ok ping_result =>
      match infoR with
      | .error e => (st2, { status := "unhealthy", error := some e })
      | .ok info =>
        (st2, { status := if ping_result then "healthy" else "unhealthy",
                ping := some ping_result,
                connected_clients := some (info.connected_clients.getD 0),
                used_memory_human := some (info.used_memory_human.getD "unknown"),
                redis_version := some (info.redis_version.getD "unknown") })

/-- Whether an internal failure (an exception from connection acquisition,
ping, or info) occurs during this `health_check` execution. -/
def healthFailure (st : Option Nat) (env : ConnectAttempt)
    (pingR : Except String Bool) (infoR : Except String StoreInfo) : Bool :=
  match get_client st env with
  | (_, .error _, _) => true
  | (_, .ok _, _) =>
    match pingR with
    | .error _ => true
    | .ok _ =>
      match infoR with
      | .error _ => true
      | .ok _ => false

/-- C5: `health_check` never raises — it is total into `HealthReport`, and
every execution yields a report whose status is "healthy" or "unhealthy";
moreover whenever an internal failure occurs (connection acquisition, ping
or info raises) the report has status "unhealthy" and carries an error
message, so callers can always render a report. -/
theorem C5_health_check_never_raises (st : Option Nat)
    (env : ConnectAttempt) (pingR : Except String Bool)
    (infoR : Except String StoreInfo) :
    ((health_check st env pingR infoR).2.status = "healthy" ∨
     (health_check st env pingR infoR).2.status = "unhealthy") ∧
    (healthFailure st env pingR infoR = true →
      (health_check st env pingR infoR).2.status = "unhealthy" ∧
      ((health_check st env pingR infoR).2.error).isSome = true) := by
  unfold health_check healthFailure
  rcases hg : get_client st env with ⟨st2, r, n⟩
  cases r with
  | error e => exact ⟨Or.inr rfl, fun _ => ⟨rfl, rfl⟩⟩
  | ok h =>
    cases pingR with
    | error e => exact ⟨Or.inr rfl, fun _ => ⟨rfl, rfl⟩⟩
    | ok ping_result =>
      cases infoR with
      | error e => exact ⟨Or.inr rfl, fun _ => ⟨rfl, rfl⟩⟩
      | ok info =>
        refine ⟨?_, fun hf => absurd hf (by simp)⟩
        cases ping_result with
        | true => exact Or.inl rfl
        | false => exact Or.inr rfl

/-- C5 witness: the theorem applied at a concrete execution in which the
connection acquisition fails, with the internal-failure premise discharged. -/
theorem C5_health_check_never_raises_witness :
    ((health_check none ⟨.error "no route", .ok ()⟩ (.ok true)
        (.ok ⟨some 3, some "1M", some "7.2"⟩)).2.status = "healthy" ∨
     (health_check none ⟨.error "no route", .ok ()⟩ (.ok true)
        (.ok ⟨some 3, some "1M", some "7.2"⟩)).2.status = "unhealthy") ∧
    ((health_check none ⟨.error "no route", .ok ()⟩ (.ok true)
        (.ok ⟨some 3, some "1M", some "7.2"⟩)).2.status = "unhealthy" ∧
      ((health_check none ⟨.error "no route", .ok ()⟩ (.ok true)
        (.ok ⟨some 3, some "1M", some "7.2"⟩)).2.error).isSome = true) :=
  have h := C5_health_check_never_raises none ⟨.error "no route", .ok ()⟩
    (.ok true) (.ok ⟨some 3, some "1M", some "7.2"⟩)
  ⟨h.1, h.2 rfl⟩

/-! ## Request Handlers (main.py) -/

/-- The validated body of `POST /cache` (`CacheItem` in models.py):
key 1-255 chars, value ≤ 10000 chars, ttl ≥ 1 if present. -/
structure CacheItem where
  key : String
  value : String
  ttl : Option Int
deriving DecidableEq, Repr

/-- The `CacheResponse` model of models.py. -/
structure CacheResponse where
  key : String
  value : Option String := none
  found : Bool := false
  message : String := ""
deriving DecidableEq, Repr

/-- The `try` block of the `POST /cache` handler `set_cache_value`
(main.py lines 115-126): on facade success return the response, on facade
falsy result raise HTTPException(500, "Failed to store value in cache"),
and let facade exceptions escape to the enclosing `except`. -/
def set_cache_value_try (st : Option Nat) (env : ConnectAttempt)
    (storeSet : Except String Bool) (item : CacheItem) :
    Option Nat × Except PyExc CacheResponse :=
  match set_value st env item.key item.value item.ttl storeSet with
  | (st2, .ok true) =>
      (st2, .ok { key := item.key, value := some item.value, found := true,
                  message := "Value stored successfully" })
  | (st2, .ok false) =>
      (st2, .error (.httpException 500 "Failed to store value in cache"))
  | (st2, .error e) => (st2, .error e)

/-- Embedding of the `POST /cache` handler `set_cache_value` (main.py lines
104-129): the `try` block above wrapped in `except Exception as e: raise
HTTPException(500, f"Failed to set cache value: {str(e)}")`. Note the
`except Exception` clause also catches the HTTPException raised inside the
`try` block, so every exception — the inner 500 included — is rewrapped. -/
def set_cache_value (st : Option Nat) (env : ConnectAttempt)
    (storeSet : Except String Bool) (item : CacheItem) :
    Option Nat × Except PyExc CacheResponse :=
  match set_cache_value_try st env storeSet item with
  | (st2, .ok r) => (st2, .ok r)
  | (st2, .error e) =>
      (st2, .error (.httpException 500 ("Failed to set cache value: " ++ pyStr e)))

/-- C4 evaluation at the failing input: with an established connection,
when the facade set returns false without raising, the handler responds 500
— but its detail is the rewrapped string
"Failed to set cache value: 500: Failed to store value in cache", not the
plain "Failed to store value in cache" the claim names, because the broad
`except Exception` swallows the inner HTTPException. The success case
(200, found=true) and the facade-raises case (500) behave as claimed. -/
theorem C4_set_handler_rewraps_inner_500 :
    (set_cache_value (some 1) ⟨.ok 0, .ok ()⟩ (.ok false) ⟨"foo", "bar", none⟩).2 =
      .error (.httpException 500
        "Failed to set cache value: 500: Failed to store value in cache") ∧
    (set_cache_value (some 1) ⟨.ok 0, .ok ()⟩ (.ok false) ⟨"foo", "bar", none⟩).2 ≠
      .error (.httpException 500 "Failed to store value in cache") ∧
    (set_cache_value (some 1) ⟨.ok 0, .ok ()⟩ (.ok true) ⟨"foo", "bar", none⟩).2 =
      .ok { key := "foo", value := some "bar", found := true,
            message := "Value stored successfully" } ∧
    (set_cache_value (some 1) ⟨.ok 0, .ok ()⟩ (.error "boom") ⟨"foo", "bar", none⟩).2 =
      .error (.httpException 500 "Failed to set cache value: boom") := by
  refine ⟨rfl, ?_, rfl, rfl⟩
  intro h
  have h1 : (set_cache_value (some 1) ⟨.ok 0, .ok ()⟩ (.ok false)
      ⟨"foo", "bar", none⟩).2 =
      .error (.httpException 500
        "Failed to set cache value: 500: Failed to store value in cache") := rfl
  rw [h1] at h
  exact absurd (Except.error.inj h) (by decide)

/-- Embedding of the `GET /cache/{key}` handler `get_cache_value` (main.py
lines 55-85): a found value yields found=true, Python `None` yields
found=false, and a facade exception is rewrapped as HTTPException 500. -/
def get_cache_value (st : Option Nat) (env : ConnectAttempt)
    (storeGet : Except String (Option String)) (key : String) :
    Option Nat × Except PyExc CacheResponse :=
  match get_value st env key storeGet with
  | (st2, .ok (some v)) =>
      (st2, .ok { key := key, value := some v, found := true,
                  message := "Value retrieved successfully" })
  | (st2, .ok none) =>
      (st2, .ok { key := key, found := false,
                  message := "Key not found in cache" })
  | (st2, .error e) =>
      (st2, .error (.httpException 500 ("Failed to get cache value: " ++ pyStr e)))

/-- Embedding of the `GET /cache` handler `get_default_cache_value`
(main.py lines 88-101): `key` is the optional query parameter (Python
`None` when absent, the empty string when present but empty);
`default_key` is `settings.default_key`. The source computes
`cache_key = key if key is not None else settings.default_key` and
delegates to `get_cache_value`. -/
def get_default_cache_value (st : Option Nat) (env : ConnectAttempt)
    (storeGet : Except String (Option String)) (key : Option String)
    (default_key : String) :
    Option Nat × Except PyExc CacheResponse :=
  get_cache_value st env storeGet
    (match key with
     | some k => k
     | none => default_key)

/-- C10: a `GET /cache` request whose key query parameter is present but
equal to the empty string is looked up under the empty string itself —
the handler behaves exactly as `GET /cache/{key}` with key ""; more
generally any present key `s` is used verbatim, and the configured default
key is substituted only when the parameter is entirely absent. -/
theorem C10_empty_key_not_defaulted (st : Option Nat)
    (env : ConnectAttempt) (storeGet : Except String (Option String))
    (default_key : String) :
    get_default_cache_value st env storeGet (some "") default_key =
      get_cache_value st env storeGet "" ∧
    (∀ s : String, get_default_cache_value st env storeGet (some s) default_key =
      get_cache_value st env storeGet s) ∧
    get_default_cache_value st env storeGet none default_key =
      get_cache_value st env storeGet default_key := by
  exact ⟨rfl, fun s => rfl, rfl⟩

/-! ## Readiness probe (`readiness_check`, main.py lines 221-266) -/

/-- The HTTP outcome of the readiness probe, flattening the 200 body and
the HTTPException(503) detail dicts of the source: `status` is the HTTP
status code, `body_status` the "status" field of the body or detail,
`redisDep` the "dependencies.redis" field when present, `errMsg` the
"error" field when present. -/
structure ReadinessResult where
  status : Nat
  body_status : String
  redisDep : Option String := none
  errMsg : Option String := none
deriving DecidableEq, Repr

/-- Embedding of the `GET /health/ready` handler `readiness_check`.
`healthOutcome` is the outcome of evaluating `redis_client.health_check()`
(which by C5 never raises, but the handler defends against any unexpected
exception with its final `except Exception` clause — kept here as the
`error` case). The `except HTTPException: raise` clause means the 503
raised in the unhealthy branch survives to the client unchanged. -/
def readiness_check (healthOutcome : Except String HealthReport) :
    ReadinessResult :=
  match healthOutcome with
  | .ok r =>
      if r.status = "healthy" then
        { status := 200, body_status := "ready", redisDep := some "healthy" }
      else
        { status := 503, body_status := "not_ready", redisDep := some "unhealthy" }
  | .error e =>
      { status := 503, body_status := "not_ready", errMsg := some e }

/-- C6: every readiness request is answered either 200 with a ready body or
503 with a not_ready body; and the answer is 200 exactly when the store
health report was produced and is healthy — every other case, the
unexpected-exception case included, yields 503 not_ready. -/
theorem C6_readiness_200_iff_healthy (ho : Except String HealthReport) :
    (((readiness_check ho).status = 200 ∧
      (readiness_check ho).body_status = "ready") ∨
     ((readiness_check ho).status = 503 ∧
      (readiness_check ho).body_status = "not_ready")) ∧
    ((readiness_check ho).status = 200 ↔
      ∃ r, ho = .ok r ∧ r.status = "healthy") := by
  cases ho with
  | ok r =>
      by_cases hr : r.status = "healthy"
      · refine ⟨Or.inl ⟨?_, ?_⟩, ?_⟩
        · simp [readiness_check, hr]
        · simp [readiness_check, hr]
        · simp [readiness_check, hr]
      · refine ⟨Or.inr ⟨?_, ?_⟩, ?_⟩
        · simp [readiness_check, hr]
        · simp [readiness_check, hr]
        · simp [readiness_check, hr]
  | error e =>
      refine ⟨Or.inr ⟨rfl, rfl⟩, ?_⟩
      simp [readiness_check]
